import Mathlib

/-!
Verification of the permeability estimator (radial flow) application.

The source is a single script: it reads nine scalar inputs, computes
`k = 162.6 * q * mu * B * (ln(re/rw) + skin) / (h * (pe - pwf))`
(rejecting `pe - pwf <= 0` with the message "Pe must be greater than Pwf"),
and for each selected axis plots 50 evenly spaced samples of one input
against the recomputed `k`.  Machine floating point is modelled by the
real numbers; `np.linspace` is modelled by `linspace` below.
-/

open Real

/-- The nine scalar inputs of the calculator (source lines 16-24). -/
structure WellTestInputs where
  q : ℝ
  pe : ℝ
  pwf : ℝ
  h : ℝ
  mu : ℝ
  B : ℝ
  re : ℝ
  rw : ℝ
  skin : ℝ

/-- The permeability expression of source line 31:
`(162.6 * q * mu * B * (np.log(re/rw) + skin)) / (h * delta_p)`,
with the denominator factor `dp` passed explicitly because the sweep
blocks substitute different quantities for it. -/
noncomputable def kExpr (q mu B re rw skin h dp : ℝ) : ℝ :=
  162.6 * q * mu * B * (Real.log (re / rw) + skin) / (h * dp)

/-- The point-estimate computation of source lines 27-32: `delta_p = pe - pwf`;
if `delta_p <= 0` the error "Pe must be greater than Pwf" is shown, otherwise
the permeability value is shown. -/
noncomputable def computePermeability (i : WellTestInputs) : Except String ℝ :=
  let delta_p := i.pe - i.pwf
  if delta_p ≤ 0 then Except.error "Pe must be greater than Pwf"
  else Except.ok (kExpr i.q i.mu i.B i.re i.rw i.skin i.h delta_p)

/-- `np.linspace a b n`: `n` evenly spaced samples from `a` to `b` inclusive
(sample `i` is `a + (b - a) * i / (n - 1)`). -/
noncomputable def linspace (a b : ℝ) (n : ℕ) : List ℝ :=
  (List.range n).map (fun (i : ℕ) => a + (b - a) * (i : ℝ) / ((n : ℝ) - 1))

/-- The nine selectable sweep axes of the multiselect (source lines 37-43). -/
inductive AxisId where
  | q | h | B | re | mu | dP | pe | pwf | skin
deriving DecidableEq

/-- The sensitivity-sweep blocks of source lines 47-85: for each axis, the
list of (axis value, k value) pairs that the corresponding `if` block plots.
The formation-volume-factor axis `B` is selectable but has no block, so it
produces no pairs. -/
noncomputable def sweep (axis : AxisId) (i : WellTestInputs) : List (ℝ × ℝ) :=
  match axis with
  | AxisId.re =>
      (linspace 200 5000 50).map (fun x =>
        (x, kExpr i.q i.mu i.B x i.rw i.skin i.h (i.pe - i.pwf)))
  | AxisId.mu =>
      (linspace 0.2 5 50).map (fun x =>
        (x, kExpr i.q x i.B i.re i.rw i.skin i.h (i.pe - i.pwf)))
  | AxisId.dP =>
      (linspace 100 3000 50).map (fun x =>
        (x, kExpr i.q i.mu i.B i.re i.rw i.skin i.h x))
  | AxisId.pe =>
      (linspace (i.pwf + 100) 5000 50).map (fun x =>
        (x, kExpr i.q i.mu i.B i.re i.rw i.skin i.h (x - i.pwf)))
  | AxisId.pwf =>
      (linspace 100 (i.pe - 50) 50).map (fun x =>
        (x, kExpr i.q i.mu i.B i.re i.rw i.skin i.h (i.pe - x)))
  | AxisId.skin =>
      (linspace (-5) 20 50).map (fun x =>
        (x, kExpr i.q i.mu i.B i.re i.rw x i.h (i.pe - i.pwf)))
  | AxisId.q =>
      (linspace 100 4000 50).map (fun x =>
        (x, kExpr x i.mu i.B i.re i.rw i.skin i.h (i.pe - i.pwf)))
  | AxisId.h =>
      (linspace 5 100 50).map (fun x =>
        (x, kExpr i.q i.mu i.B i.re i.rw i.skin x (i.pe - i.pwf)))
  | AxisId.B => []

/-- The default inputs of the source's input widgets, which are also the
worked scenario of the specification:
`q=500, pe=2000, pwf=1000, h=20, mu=1, B=1, re=1000, rw=0.333, s=0`. -/
noncomputable def scenarioInputs : WellTestInputs :=
  ⟨500, 2000, 1000, 20, 1, 1, 1000, 0.333, 0⟩

/-- The scenario inputs with `pe` lowered to `50`, so that the
pwf sweep range `linspace 100 (pe - 50) 50` runs downward. -/
noncomputable def lowPeInputs : WellTestInputs :=
  ⟨500, 50, 1000, 20, 1, 1, 1000, 0.333, 0⟩

/-- The scenario inputs with `pe` and `pwf` swapped
(`pe = 1000 < 1500 = pwf`), an invalid base input. -/
noncomputable def invalidInputs : WellTestInputs :=
  ⟨500, 1000, 1500, 20, 1, 1, 1000, 0.333, 0⟩

-- ### Helper lemmas

theorem length_linspace (a b : ℝ) (n : ℕ) : (linspace a b n).length = n := by
  rw [linspace, List.length_map, List.length_range]

theorem length_sweep (axis : AxisId) (i : WellTestInputs) (hB : axis ≠ AxisId.B) :
    (sweep axis i).length = 50 := by
  cases axis <;> simp [sweep, length_linspace] at hB ⊢

theorem linspace_getElem (a b : ℝ) (n j : ℕ) (hj : j < (linspace a b n).length) :
    (linspace a b n)[j] = a + (b - a) * (j : ℝ) / ((n : ℝ) - 1) := by
  simp only [linspace, List.getElem_map, List.getElem_range]

theorem linspace_pairwise_of_lt (a b : ℝ) (n : ℕ) (hab : a < b) (hn : 2 ≤ n) :
    (linspace a b n).Pairwise (· < ·) := by
  rw [List.pairwise_iff_getElem]
  intro x y hx hy hxy
  rw [linspace_getElem a b n x hx, linspace_getElem a b n y hy]
  have hx' : (x : ℝ) < (y : ℝ) := by exact_mod_cast hxy
  have hden : (0 : ℝ) < (n : ℝ) - 1 := by
    have : (2 : ℝ) ≤ (n : ℝ) := by exact_mod_cast hn
    linarith
  have : (b - a) * (x : ℝ) / ((n : ℝ) - 1) < (b - a) * (y : ℝ) / ((n : ℝ) - 1) := by
    rw [mul_div_assoc, mul_div_assoc]
    exact mul_lt_mul_of_pos_left (by gcongr) (by linarith)
  linarith

theorem sweep_fst_map (axis : AxisId) (i : WellTestInputs) :
    (sweep axis i).map Prod.fst =
      match axis with
      | AxisId.re => linspace 200 5000 50
      | AxisId.mu => linspace 0.2 5 50
      | AxisId.dP => linspace 100 3000 50
      | AxisId.pe => linspace (i.pwf + 100) 5000 50
      | AxisId.pwf => linspace 100 (i.pe - 50) 50
      | AxisId.skin => linspace (-5) 20 50
      | AxisId.q => linspace 100 4000 50
      | AxisId.h => linspace 5 100 50
      | AxisId.B => [] := by
  cases axis <;> simp only [sweep, List.map_map] <;> rfl

-- ### Claim theorems

/-- Claim C1: for every input with `pe > pwf`, `re > rw` and `h ≠ 0`, the
point-estimate computation succeeds and returns exactly
`162.6*q*mu*B*(ln(re/rw)+s)/(h*(pe-pwf))` (floating point modelled by ℝ,
so the 1e-9 relative-error tolerance is met with exact equality). -/
theorem computePermeability_formula (i : WellTestInputs)
    (hp : i.pwf < i.pe) (hre : i.rw < i.re) (hh : i.h ≠ 0) :
    computePermeability i =
      Except.ok (162.6 * i.q * i.mu * i.B * (Real.log (i.re / i.rw) + i.skin)
        / (i.h * (i.pe - i.pwf))) := by
  unfold computePermeability
  rw [if_neg (by linarith : ¬ i.pe - i.pwf ≤ 0)]
  rfl

theorem computePermeability_formula_witness :
    scenarioInputs.pwf < scenarioInputs.pe ∧ scenarioInputs.rw < scenarioInputs.re ∧
      scenarioInputs.h ≠ 0 ∧
      computePermeability scenarioInputs =
        Except.ok (162.6 * 500 * 1 * 1 * (Real.log (1000 / 0.333) + 0)
          / (20 * (2000 - 1000))) :=
  ⟨by norm_num [scenarioInputs], by norm_num [scenarioInputs], by norm_num [scenarioInputs],
    computePermeability_formula scenarioInputs (by norm_num [scenarioInputs])
      (by norm_num [scenarioInputs]) (by norm_num [scenarioInputs])⟩

/-- Claim C2: the point-estimate computation fails with the validation error
iff `pe ≤ pwf` (independent of the other seven fields), the message for that
violation is exactly "Pe must be greater than Pwf", and no numeric point
estimate is produced in that case. -/
theorem computePermeability_validation (i : WellTestInputs) :
    (computePermeability i = Except.error "Pe must be greater than Pwf" ↔ i.pe ≤ i.pwf) ∧
    (∀ e : String, computePermeability i = Except.error e →
      e = "Pe must be greater than Pwf") ∧
    (∀ v : ℝ, i.pe ≤ i.pwf → computePermeability i ≠ Except.ok v) := by
  unfold computePermeability
  by_cases hc : i.pe - i.pwf ≤ 0
  · rw [if_pos hc]
    have hle : i.pe ≤ i.pwf := by linarith
    exact ⟨⟨fun _ => hle, fun _ => rfl⟩,
      fun e he => by
        have := he
        rw [Except.error.injEq] at this
        exact this.symm,
      fun v _ h => Except.noConfusion h⟩
  · rw [if_neg hc]
    have hgt : ¬ i.pe ≤ i.pwf := fun h => hc (by linarith)
    exact ⟨⟨fun h => Except.noConfusion h, fun h => absurd h hgt⟩,
      fun e he => Except.noConfusion he,
      fun v hle _ => hgt hle⟩

theorem computePermeability_validation_witness :
    invalidInputs.pe ≤ invalidInputs.pwf ∧
      computePermeability invalidInputs = Except.error "Pe must be greater than Pwf" :=
  ⟨by norm_num [invalidInputs],
    (computePermeability_validation invalidInputs).1.mpr (by norm_num [invalidInputs])⟩

/-- Claim C3: the drainage-radius sweep returns exactly 50 pairs, whose axis
values are `200 + (5000-200)*j/49` for `j = 0..49` (linearly spaced between
200 and 5000 inclusive), strictly increasing, and each paired `k` value is
the formula applied with `re` replaced by the sample and all other fields
held fixed. -/
theorem sweep_re_spec (i : WellTestInputs) :
    (sweep AxisId.re i).length = 50 ∧
    sweep AxisId.re i = (List.range 50).map (fun (j : ℕ) =>
      (200 + (5000 - 200) * (j : ℝ) / 49,
       kExpr i.q i.mu i.B (200 + (5000 - 200) * (j : ℝ) / 49)
         i.rw i.skin i.h (i.pe - i.pwf))) ∧
    ((sweep AxisId.re i).map Prod.fst).Pairwise (· < ·) := by
  refine ⟨length_sweep _ _ (by decide), ?_, ?_⟩
  · simp only [sweep, linspace, List.map_map]
    refine List.map_congr_left ?_
    intro j hj
    have : ((50 : ℕ) : ℝ) - 1 = 49 := by norm_num
    simp only [Function.comp_def, this]
  · rw [sweep_fst_map]
    exact linspace_pairwise_of_lt 200 5000 50 (by norm_num) (by norm_num)

/-- Claim C9: the formation-volume-factor axis is selectable but no sweep
block computes a series for it: its sweep output is empty for every input. -/
theorem sweep_B_empty (i : WellTestInputs) : sweep AxisId.B i = [] := rfl

/-- Claim C8: the ΔP sweep is a two-run noninterference property of the base
pressures: inputs agreeing on `q, mu, B, re, rw, s, h` but differing in `pe`
and `pwf` give identical ΔP series, because each of the 50 samples (100 to
3000) is substituted directly for the denominator factor `pe - pwf`. -/
theorem sweep_dP_noninterference (i j : WellTestInputs)
    (hq : i.q = j.q) (hmu : i.mu = j.mu) (hB : i.B = j.B) (hre : i.re = j.re)
    (hrw : i.rw = j.rw) (hs : i.skin = j.skin) (hh : i.h = j.h) :
    sweep AxisId.dP i = sweep AxisId.dP j ∧
    sweep AxisId.dP i = (linspace 100 3000 50).map
      (fun x => (x, kExpr i.q i.mu i.B i.re i.rw i.skin i.h x)) :=
  ⟨by simp only [sweep, hq, hmu, hB, hre, hrw, hs, hh], rfl⟩

theorem sweep_dP_noninterference_witness :
    scenarioInputs.pe ≠ invalidInputs.pe ∧ scenarioInputs.pwf ≠ invalidInputs.pwf ∧
      sweep AxisId.dP scenarioInputs = sweep AxisId.dP invalidInputs :=
  ⟨by norm_num [scenarioInputs, invalidInputs],
    by norm_num [scenarioInputs, invalidInputs],
    (sweep_dP_noninterference scenarioInputs invalidInputs
      rfl rfl rfl rfl rfl rfl rfl).1⟩

/-- Claim C4 fails as it is stated: with `q=1, mu=B=h=1, dp=1, re=8, rw=1,
s=-10` every constraint of the claim holds (`q, mu, B, h, dp` positive and
`re/rw > 1`), yet raising `q` from 1 to 2 strictly lowers `k`, because the
factor `ln(re/rw) + s` is negative there. -/
theorem kExpr_monotonicity_counterexample :
    (0 : ℝ) < 1 ∧ 1 < (8 : ℝ) / 1 ∧ (1 : ℝ) < 2 ∧
    kExpr 2 1 1 8 1 (-10) 1 1 < kExpr 1 1 1 8 1 (-10) 1 1 := by
  refine ⟨by norm_num, by norm_num, by norm_num, ?_⟩
  have h8 : Real.log 8 ≤ 7 := by
    have := Real.log_le_sub_one_of_pos (by norm_num : (0:ℝ) < 8)
    linarith
  unfold kExpr
  norm_num
  nlinarith [h8]

/-- Claim C4 (amended): holding all else fixed, with `q, mu, B, h` and the
drawdown `dp = pe - pwf` positive, `re/rw > 1`, and additionally
`ln(re/rw) + s > 0` (a positive numerator, which the original claim omits),
`k` is strictly decreasing in `h` and in `dp`, and strictly increasing in
`q`, `mu`, `B` and `s`. -/
theorem kExpr_monotonicity (q mu B re rw s h dp : ℝ)
    (hq : 0 < q) (hmu : 0 < mu) (hB : 0 < B) (hh : 0 < h) (hdp : 0 < dp)
    (hratio : 1 < re / rw) (hnum : 0 < Real.log (re / rw) + s) :
    (∀ h2, h < h2 → kExpr q mu B re rw s h2 dp < kExpr q mu B re rw s h dp) ∧
    (∀ dp2, dp < dp2 → kExpr q mu B re rw s h dp2 < kExpr q mu B re rw s h dp) ∧
    (∀ q2, q < q2 → kExpr q mu B re rw s h dp < kExpr q2 mu B re rw s h dp) ∧
    (∀ mu2, mu < mu2 → kExpr q mu B re rw s h dp < kExpr q mu2 B re rw s h dp) ∧
    (∀ B2, B < B2 → kExpr q mu B re rw s h dp < kExpr q mu B2 re rw s h dp) ∧
    (∀ s2, s < s2 → kExpr q mu B re rw s h dp < kExpr q mu B re rw s2 h dp) := by
  have hN : 0 < 162.6 * q * mu * B * (Real.log (re / rw) + s) := by positivity
  refine ⟨?_, ?_, ?_, ?_, ?_, ?_⟩
  · intro h2 hlt
    unfold kExpr
    exact div_lt_div_of_pos_left hN (by positivity) (by nlinarith)
  · intro dp2 hlt
    unfold kExpr
    exact div_lt_div_of_pos_left hN (by positivity) (by nlinarith)
  · intro q2 hlt
    have e1 : kExpr q mu B re rw s h dp
        = q * (162.6 * mu * B * (Real.log (re / rw) + s) / (h * dp)) := by
      unfold kExpr; ring
    have e2 : kExpr q2 mu B re rw s h dp
        = q2 * (162.6 * mu * B * (Real.log (re / rw) + s) / (h * dp)) := by
      unfold kExpr; ring
    rw [e1, e2]
    exact mul_lt_mul_of_pos_right hlt (by positivity)
  · intro mu2 hlt
    have e1 : kExpr q mu B re rw s h dp
        = mu * (162.6 * q * B * (Real.log (re / rw) + s) / (h * dp)) := by
      unfold kExpr; ring
    have e2 : kExpr q mu2 B re rw s h dp
        = mu2 * (162.6 * q * B * (Real.log (re / rw) + s) / (h * dp)) := by
      unfold kExpr; ring
    rw [e1, e2]
    exact mul_lt_mul_of_pos_right hlt (by positivity)
  · intro B2 hlt
    have e1 : kExpr q mu B re rw s h dp
        = B * (162.6 * q * mu * (Real.log (re / rw) + s) / (h * dp)) := by
      unfold kExpr; ring
    have e2 : kExpr q mu B2 re rw s h dp
        = B2 * (162.6 * q * mu * (Real.log (re / rw) + s) / (h * dp)) := by
      unfold kExpr; ring
    rw [e1, e2]
    exact mul_lt_mul_of_pos_right hlt (by positivity)
  · intro s2 hlt
    have e1 : kExpr q mu B re rw s h dp
        = (Real.log (re / rw) + s) * (162.6 * q * mu * B / (h * dp)) := by
      unfold kExpr; ring
    have e2 : kExpr q mu B re rw s2 h dp
        = (Real.log (re / rw) + s2) * (162.6 * q * mu * B / (h * dp)) := by
      unfold kExpr; ring
    rw [e1, e2]
    exact mul_lt_mul_of_pos_right (by linarith) (by positivity)

theorem kExpr_monotonicity_witness :
    (0 : ℝ) < 1 ∧ 1 < (2 : ℝ) / 1 ∧ 0 < Real.log ((2 : ℝ) / 1) + 0 ∧
    kExpr 1 1 1 2 1 0 1 1 < kExpr 1 1 1 2 1 1 1 1 := by
  have hlog : 0 < Real.log ((2 : ℝ) / 1) + 0 := by
    rw [div_one, add_zero]
    exact Real.log_pos (by norm_num)
  refine ⟨by norm_num, by norm_num, hlog, ?_⟩
  exact (kExpr_monotonicity 1 1 1 2 1 0 1 1 (by norm_num) (by norm_num) (by norm_num)
    (by norm_num) (by norm_num) (by norm_num) hlog).2.2.2.2.2 1 (by norm_num)

/-- Claim C5 fails as it is stated: with current `pe = 50` the pwf sweep range
`linspace 100 (pe - 50) 50` runs downward, so the samples are not in strictly
increasing axis order (the claim asserts this "for every current value of pe"). -/
theorem sweep_axis_sorted_counterexample :
    lowPeInputs.pe = 50 ∧
    ¬ ((sweep AxisId.pwf lowPeInputs).map Prod.fst).Pairwise (· < ·) := by
  refine ⟨rfl, fun hp => ?_⟩
  rw [sweep_fst_map, List.pairwise_iff_getElem] at hp
  have h0 : (0 : ℕ) < (linspace 100 (lowPeInputs.pe - 50) 50).length := by
    rw [length_linspace]; norm_num
  have h1 : (1 : ℕ) < (linspace 100 (lowPeInputs.pe - 50) 50).length := by
    rw [length_linspace]; norm_num
  have h01 := hp 0 1 h0 h1 (by norm_num)
  rw [linspace_getElem _ _ _ _ h0, linspace_getElem _ _ _ _ h1] at h01
  norm_num [lowPeInputs] at h01

/-- Claim C5 (amended): the sweep's samples appear in strictly increasing
order of the swept axis value for every axis and input, provided the two
input-dependent ranges are nondegenerate: `pe > 150` when sweeping pwf
(whose range runs from 100 up to `pe - 50`) and `pwf < 4900` when sweeping
pe; the fixed ranges of the other axes always increase. -/
theorem sweep_axis_sorted (axis : AxisId) (i : WellTestInputs)
    (hpwfAxis : axis = AxisId.pwf → 150 < i.pe)
    (hpeAxis : axis = AxisId.pe → i.pwf < 4900) :
    ((sweep axis i).map Prod.fst).Pairwise (· < ·) := by
  rw [sweep_fst_map]
  cases axis
  case q => exact linspace_pairwise_of_lt _ _ _ (by norm_num) (by norm_num)
  case h => exact linspace_pairwise_of_lt _ _ _ (by norm_num) (by norm_num)
  case B => exact List.Pairwise.nil
  case re => exact linspace_pairwise_of_lt _ _ _ (by norm_num) (by norm_num)
  case mu => exact linspace_pairwise_of_lt _ _ _ (by norm_num) (by norm_num)
  case dP => exact linspace_pairwise_of_lt _ _ _ (by norm_num) (by norm_num)
  case pe =>
    exact linspace_pairwise_of_lt _ _ _ (by linarith [hpeAxis rfl]) (by norm_num)
  case pwf =>
    exact linspace_pairwise_of_lt _ _ _ (by linarith [hpwfAxis rfl]) (by norm_num)
  case skin => exact linspace_pairwise_of_lt _ _ _ (by norm_num) (by norm_num)

theorem sweep_axis_sorted_witness :
    (150 : ℝ) < scenarioInputs.pe ∧
    ((sweep AxisId.pwf scenarioInputs).map Prod.fst).Pairwise (· < ·) :=
  ⟨by norm_num [scenarioInputs],
    sweep_axis_sorted AxisId.pwf scenarioInputs
      (fun _ => by norm_num [scenarioInputs])
      (fun hcontra => absurd hcontra (by decide))⟩

/-- Claim C6 fails as it is stated: with current `pe = 50` the pwf sweep
still contains the sample `pwf = 100`, which is not below `pe`, so the
denominator `pe - 100 = -50` of that sample is negative; the claim asserts
validity of every sample "for every input". -/
theorem sweep_pwf_in_range_counterexample :
    lowPeInputs.pe = 50 ∧
    ((100 : ℝ), kExpr 500 1 1 1000 0.333 0 20 (50 - 100)) ∈ sweep AxisId.pwf lowPeInputs ∧
    ¬ ((100 : ℝ) < lowPeInputs.pe) := by
  refine ⟨rfl, ?_, by norm_num [lowPeInputs]⟩
  simp only [sweep, linspace, List.mem_map, List.mem_range]
  refine ⟨100, ⟨0, by norm_num, by norm_num⟩, ?_⟩
  norm_num [lowPeInputs]

/-- Claim C6 (amended): for every input with `pe > 100`, every sample of the
pwf sweep range (50 samples from 100 to `pe - 50`) is strictly less than
`pe`, so no sample makes the denominator `pe - pwf_sample` non-positive. -/
theorem sweep_pwf_samples_lt_pe (i : WellTestInputs) (hpe : 100 < i.pe) :
    ∀ p ∈ sweep AxisId.pwf i, p.1 < i.pe ∧ 0 < i.pe - p.1 := by
  intro p hp
  simp only [sweep, linspace, List.mem_map, List.mem_range] at hp
  obtain ⟨x, ⟨j, hj, rfl⟩, rfl⟩ := hp
  have hj49 : (j : ℝ) ≤ 49 := by
    have : j ≤ 49 := Nat.lt_succ_iff.mp hj
    exact_mod_cast this
  have hj0 : (0 : ℝ) ≤ (j : ℝ) := Nat.cast_nonneg j
  have h50 : ((50 : ℕ) : ℝ) - 1 = 49 := by norm_num
  have key : 100 + (i.pe - 50 - 100) * (j : ℝ) / (((50 : ℕ) : ℝ) - 1) < i.pe := by
    rw [h50]
    rcases le_or_lt 150 i.pe with hc | hc
    · have : (i.pe - 50 - 100) * (j : ℝ) / 49 ≤ i.pe - 150 := by
        rw [div_le_iff (by norm_num : (0 : ℝ) < 49)]
        nlinarith
      linarith
    · have : (i.pe - 50 - 100) * (j : ℝ) / 49 ≤ 0 := by
        apply div_nonpos_of_nonpos_of_nonneg
        · nlinarith
        · norm_num
      linarith
  exact ⟨key, by linarith [key]⟩

theorem sweep_pwf_samples_lt_pe_witness :
    (100 : ℝ) < scenarioInputs.pe ∧
    ∀ p ∈ sweep AxisId.pwf scenarioInputs, p.1 < scenarioInputs.pe ∧
      0 < scenarioInputs.pe - p.1 :=
  ⟨by norm_num [scenarioInputs],
    sweep_pwf_samples_lt_pe scenarioInputs (by norm_num [scenarioInputs])⟩

/-- Claim C7: for every input in the invalid base region (`pe ≤ pwf`) the
point estimate is replaced by the validation error, but every wired sweep
axis (every axis except the unwired formation-volume-factor axis) still
produces its full 50-sample series: the error never suppresses the sweep. -/
theorem sweep_independent_of_validation (i : WellTestInputs) (hle : i.pe ≤ i.pwf) :
    computePermeability i = Except.error "Pe must be greater than Pwf" ∧
    ∀ axis : AxisId, axis ≠ AxisId.B → (sweep axis i).length = 50 := by
  refine ⟨?_, fun axis hB => length_sweep axis i hB⟩
  unfold computePermeability
  rw [if_pos (by linarith)]

theorem sweep_independent_of_validation_witness :
    invalidInputs.pe ≤ invalidInputs.pwf ∧
    computePermeability invalidInputs = Except.error "Pe must be greater than Pwf" ∧
    (sweep AxisId.re invalidInputs).length = 50 :=
  ⟨by norm_num [invalidInputs],
    (sweep_independent_of_validation invalidInputs (by norm_num [invalidInputs])).1,
    (sweep_independent_of_validation invalidInputs
      (by norm_num [invalidInputs])).2 AxisId.re (by decide)⟩

-- Bounds on the scenario logarithm `ln(1000/0.333) = ln(1000000/333)`,
-- obtained from `1000000/333 = 2^11 * (1000000/681984)` together with the
-- decimal bounds on `ln 2` and `y - 1`-type bounds on the small factor.
theorem log_scenario_ratio_bounds :
    7.94 < Real.log ((1000 : ℝ) / 0.333) ∧ Real.log ((1000 : ℝ) / 0.333) < 8.1 := by
  have hratio : (1000 : ℝ) / 0.333 = 1000000 / 333 := by norm_num
  have hsplit : (1000000 : ℝ) / 333 = 2 ^ 11 * (1000000 / 681984) := by norm_num
  have hlogmul : Real.log ((1000000 : ℝ) / 333)
      = 11 * Real.log 2 + Real.log ((1000000 : ℝ) / 681984) := by
    rw [hsplit, Real.log_mul (by norm_num) (by norm_num), Real.log_pow]
    norm_num
  have hupper : Real.log ((1000000 : ℝ) / 681984) ≤ 1000000 / 681984 - 1 :=
    Real.log_le_sub_one_of_pos (by norm_num)
  have hlowerAux : Real.log ((681984 : ℝ) / 1000000) ≤ 681984 / 1000000 - 1 :=
    Real.log_le_sub_one_of_pos (by norm_num)
  have hinv : Real.log ((1000000 : ℝ) / 681984) = - Real.log ((681984 : ℝ) / 1000000) := by
    rw [← Real.log_inv]
    norm_num
  have hlower : 1 - (681984 : ℝ) / 1000000 ≤ Real.log ((1000000 : ℝ) / 681984) := by
    rw [hinv]; linarith
  have h2lo := Real.log_two_gt_d9
  have h2hi := Real.log_two_lt_d9
  rw [hratio, hlogmul]
  constructor
  · linarith
  · linarith

/-- Claim C10 fails as it is stated: at the scenario inputs
`q=500, pe=2000, pwf=1000, h=20, mu=1, B=1, re=1000, rw=0.333, s=0` the
computation does succeed and does return the stated formula value, but that
value is below 33 — more than 35 away from the claimed "approximately
68.72 mD". -/
theorem scenario_k_counterexample :
    computePermeability scenarioInputs =
      Except.ok (162.6 * 500 * 1 * 1 * (Real.log ((1000 : ℝ) / 0.333) + 0)
        / (20 * 1000)) ∧
    162.6 * 500 * 1 * 1 * (Real.log ((1000 : ℝ) / 0.333) + 0) / (20 * 1000) < 33 ∧
    ¬ (|162.6 * 500 * 1 * 1 * (Real.log ((1000 : ℝ) / 0.333) + 0) / (20 * 1000)
        - 68.72| < 35) := by
  have hlb := log_scenario_ratio_bounds.1
  have hub := log_scenario_ratio_bounds.2
  have hk : (162.6 : ℝ) * 500 * 1 * 1 * (Real.log ((1000 : ℝ) / 0.333) + 0)
      / (20 * 1000) = 4.065 * Real.log ((1000 : ℝ) / 0.333) := by
    ring
  refine ⟨?_, ?_, ?_⟩
  · unfold computePermeability
    rw [if_neg (by norm_num [scenarioInputs])]
    norm_num [scenarioInputs, kExpr]
  · rw [hk]; nlinarith
  · rw [hk, abs_sub_lt_iff]
    push_neg
    intro h1
    nlinarith

/-- Claim C10 (amended): at the scenario inputs the point estimate succeeds
and returns `k = 162.6*500*1*1*(ln(1000/0.333)+0)/(20*1000)`, which lies
strictly between 32 and 33 — approximately 32.55 mD, not 68.72 mD. -/
theorem scenario_k_value :
    computePermeability scenarioInputs =
      Except.ok (162.6 * 500 * 1 * 1 * (Real.log ((1000 : ℝ) / 0.333) + 0)
        / (20 * 1000)) ∧
    32 < 162.6 * 500 * 1 * 1 * (Real.log ((1000 : ℝ) / 0.333) + 0) / (20 * 1000) ∧
    162.6 * 500 * 1 * 1 * (Real.log ((1000 : ℝ) / 0.333) + 0) / (20 * 1000) < 33 := by
  have hlb := log_scenario_ratio_bounds.1
  have hub := log_scenario_ratio_bounds.2
  have hk : (162.6 : ℝ) * 500 * 1 * 1 * (Real.log ((1000 : ℝ) / 0.333) + 0)
      / (20 * 1000) = 4.065 * Real.log ((1000 : ℝ) / 0.333) := by
    ring
  refine ⟨?_, ?_, ?_⟩
  · unfold computePermeability
    rw [if_neg (by norm_num [scenarioInputs])]
    norm_num [scenarioInputs, kExpr]
  · rw [hk]; nlinarith
  · rw [hk]; nlinarith
